import Mathlib

/-!
Shallow embedding of `statiolake/tempfile-rs` (`src/lib.rs`), a minimal
temporary-file utility, together with theorems checking its specification.

Modelling conventions:
* A filesystem path is its parsed component list (Unix style), since Rust
  `Path` equality, `file_name`, `parent`, `extension` are all component-based.
* The filesystem is a map from paths to file contents (a `String`).
  Permission errors are not modelled (the spec excludes permission
  enforcement); the existence-related behaviour of `File::create`,
  `File::open` and `fs::remove_file` is modelled exactly.
* Rust `File` values are modelled as descriptors recording the path and the
  access mode they were opened with (`File::create` gives a write-only
  descriptor, `File::open` a read-only one).
* Fallible operations return `Except IoError _`; a `panic!`/`expect` branch
  is modelled as `Except.error` of the panic message.
-/

namespace Tempfile

/-- One parsed component of a Unix path, as in Rust's `std::path::Component`
(prefixes do not exist on Unix). -/
inductive Component where
  | rootDir : Component
  | curDir : Component
  | parentDir : Component
  | normal : String → Component
deriving DecidableEq, Repr

/-- A path is its list of parsed components. Rust `Path` equality compares
component iterators, so this representation is observationally faithful. -/
abbrev FsPath : Type := List Component

/-- Rust `Path::is_absolute` on Unix: the path has a root. -/
def FsPath.isAbsolute (p : FsPath) : Bool :=
  match p with
  | Component.rootDir :: _ => true
  | _ => false

/-- Rust `PathBuf::push`: an absolute path replaces the current one,
otherwise the components are appended. -/
def FsPath.push (p q : FsPath) : FsPath :=
  if q.isAbsolute then q else p ++ q

/-- Rust `Path::file_name`: the final component when it is a normal
component, `none` for paths ending in root, `..`, `.` or the empty path. -/
def FsPath.fileName (p : FsPath) : Option String :=
  match p.getLast? with
  | some (Component.normal s) => some s
  | _ => none

/-- Rust `Path::parent`: the path without its final component; `none` for
the empty path and for a bare root. -/
def FsPath.parent (p : FsPath) : Option FsPath :=
  if p = [] ∨ p = [Component.rootDir] then none else some p.dropLast

/-- Rust's `rsplit_file_at_dot` on a file name: split at the last `.`; a
name with no `.`, or whose part before the last `.` is empty (a hidden file
like `.gitignore`), has no extension. (The `..` special case cannot arise:
a normal component is never `..`.) -/
def splitFileAtDot (f : String) : String × Option String :=
  let chars := f.toList
  let extRev := chars.reverse.takeWhile (fun c => c != '.')
  if extRev.length = chars.length then (f, none)
  else if chars.length - extRev.length - 1 = 0 then (f, none)
  else (String.mk (chars.take (chars.length - extRev.length - 1)),
        some (String.mk extRev.reverse))

/-- Rust `Path::extension`. -/
def FsPath.extension (p : FsPath) : Option String :=
  match p.fileName with
  | some f => (splitFileAtDot f).2
  | none => none

/-- Rust `Path::with_file_name` (via `set_file_name`): pop the final
component when a file name is present, then push the new name. File-name
arguments are modelled as single normal components. -/
def FsPath.withFileName (p : FsPath) (name : String) : FsPath :=
  let base := if p.fileName.isSome then p.dropLast else p
  FsPath.push base [Component.normal name]

/-- Rust `Path::with_extension` (via `set_extension`): no-op when there is
no file name; otherwise the file name becomes `stem` or `stem.ext`. -/
def FsPath.withExtension (p : FsPath) (ext : String) : FsPath :=
  match p.fileName with
  | none => p
  | some f =>
    let stem := (splitFileAtDot f).1
    let newName := if ext = "" then stem else stem ++ "." ++ ext
    p.dropLast ++ [Component.normal newName]

/-- The error conditions of the modelled filesystem primitives. -/
inductive IoError where
  | notFound : IoError
  | alreadyExists : IoError
deriving DecidableEq, Repr

/-- The filesystem: a map from paths to file contents. -/
abbrev FS : Type := FsPath → Option String

/-- Write (or overwrite) the file at `p` with contents `c`. -/
def FS.set (fs : FS) (p : FsPath) (c : String) : FS :=
  fun q => if q = p then some c else fs q

/-- Remove the entry at `p`. -/
def FS.erase (fs : FS) (p : FsPath) : FS :=
  fun q => if q = p then none else fs q

/-- The empty filesystem. -/
def FS.empty : FS := fun _ => none

/-- A modelled `std::fs::File`: the path it was opened at and its mode.
`File::create` yields a write-only descriptor, `File::open` read-only. -/
structure FileDesc where
  path : FsPath
  readable : Bool
  writable : Bool
deriving DecidableEq, Repr

/-- Rust `File::create`: opens in write-only mode, creating the file if
absent and truncating it to empty if present. It does not fail on an
existing file (permission failures are outside the model). -/
def fileCreate (fs : FS) (p : FsPath) : FS × Except IoError FileDesc :=
  (fs.set p "", Except.ok { path := p, readable := false, writable := true })

/-- Rust `File::open`: opens in read-only mode; fails with `NotFound` when
nothing exists at the path; never creates a file. -/
def fileOpen (fs : FS) (p : FsPath) : Except IoError FileDesc :=
  match fs p with
  | some _ => Except.ok { path := p, readable := true, writable := false }
  | none => Except.error IoError.notFound

/-- Rust `std::fs::remove_file`: deletes the file at `p`, failing with
`NotFound` when nothing is there. -/
def removeFile (fs : FS) (p : FsPath) : Except IoError FS :=
  match fs p with
  | some _ => Except.ok (fs.erase p)
  | none => Except.error IoError.notFound

/-- `struct TempFileCore { file_path: PathBuf }` (lib.rs:15). -/
structure TempFileCore where
  file_path : FsPath
deriving DecidableEq, Repr

/-- `impl Drop for TempFileCore` (lib.rs:20): `let _ = fs::remove_file(&self.file_path);`
The deletion result is discarded, so the drop itself is a total function on
the filesystem. -/
def TempFileCore.drop (fs : FS) (core : TempFileCore) : FS :=
  match removeFile fs core.file_path with
  | Except.ok fs' => fs'
  | Except.error _ => fs

/-- `pub struct TempFile { file: Option<File>, core: TempFileCore }` (lib.rs:29). -/
structure TempFile where
  file : Option FileDesc
  core : TempFileCore
deriving DecidableEq, Repr

/-- `pub struct ClosedTempFile { core: TempFileCore }` (lib.rs:37). -/
structure ClosedTempFile where
  core : TempFileCore
deriving DecidableEq, Repr

/-- `pub struct TempFileBuilder { file_path: PathBuf }` (lib.rs:42). -/
structure TempFileBuilder where
  file_path : FsPath
deriving DecidableEq, Repr

/-- `create_tmp_file_name` (lib.rs:139): the prefix concatenated with a
freshly generated unique token. The token is an injected parameter since
the UUID source is external randomness. -/
def create_tmp_file_name (pre : String) (uuidToken : String) : String :=
  pre ++ uuidToken

/-- `TempFileBuilder::new` (lib.rs:48): system temp dir joined with a
generated name. `tempDir` and `uuidToken` are the injected environment. -/
def TempFileBuilder.new (tempDir : FsPath) (uuidToken : String) : TempFileBuilder :=
  { file_path := FsPath.push tempDir [Component.normal (create_tmp_file_name "temp" uuidToken)] }

/-- `TempFileBuilder::file_path` (lib.rs:54): sets the path. -/
def TempFileBuilder.with_path (b : TempFileBuilder) (file_path : FsPath) : TempFileBuilder :=
  { b with file_path := file_path }

/-- `TempFileBuilder::with_parent_dir` (lib.rs:60): starts from the new
parent directory and pushes the current file name, or the empty path when
the current path has no file-name component (`unwrap_or(OsStr::new(""))`;
pushing the empty path leaves the component list unchanged). -/
def TempFileBuilder.with_parent_dir (b : TempFileBuilder) (parent_dir : FsPath) : TempFileBuilder :=
  let pushed : FsPath :=
    match b.file_path.fileName with
    | some n => [Component.normal n]
    | none => []
  b.with_path (FsPath.push parent_dir pushed)

/-- `TempFileBuilder::with_file_name` (lib.rs:68). The source computes
`self.file_path.with_file_name(file_name)` and discards the returned
`PathBuf` without assigning it, so the builder is returned unchanged. -/
def TempFileBuilder.with_file_name (b : TempFileBuilder) (file_name : String) : TempFileBuilder :=
  let _discarded := b.file_path.withFileName file_name
  b

/-- `TempFileBuilder::with_extension` (lib.rs:74). The source computes
`self.file_path.with_extension(ext)` and discards the returned `PathBuf`
without assigning it, so the builder is returned unchanged. -/
def TempFileBuilder.with_extension (b : TempFileBuilder) (ext : String) : TempFileBuilder :=
  let _discarded := b.file_path.withExtension ext
  b

/-- `TempFile::from_path` (lib.rs:88): `File::create(&file_path).map(|file| TempFile { .. })`. -/
def TempFile.from_path (fs : FS) (file_path : FsPath) : FS × Except IoError TempFile :=
  let res := fileCreate fs file_path
  (res.1, res.2.map fun file => { file := some file, core := { file_path := file_path } })

/-- `TempFileBuilder::build` (lib.rs:80): `TempFile::from_path(self.file_path)`. -/
def TempFileBuilder.build (b : TempFileBuilder) (fs : FS) : FS × Except IoError TempFile :=
  TempFile.from_path fs b.file_path

/-- `TempFile::close` (lib.rs:97): moves the core into a `ClosedTempFile`;
the `Option<File>` field is dropped, releasing the OS descriptor. `TempFile`
itself has no `Drop` impl, so no deletion happens here. Infallible. -/
def TempFile.close (t : TempFile) : ClosedTempFile :=
  { core := t.core }

/-- `TempFile::file` (lib.rs:105): `self.file.as_ref().expect(..)`. The
`expect` panic branch is modelled as `Except.error` of the panic message. -/
def TempFile.file_ref (t : TempFile) : Except String FileDesc :=
  match t.file with
  | some f => Except.ok f
  | none => Except.error "internal error: file must be valid."

/-- `TempFile::file_mut` (lib.rs:112): same access as `file`, mutably. -/
def TempFile.file_mut_ref (t : TempFile) : Except String FileDesc :=
  match t.file with
  | some f => Except.ok f
  | none => Except.error "internal error: file must be valid."

/-- `TempFile::file_path` (lib.rs:119). -/
def TempFile.file_path (t : TempFile) : FsPath :=
  t.core.file_path

/-- `ClosedTempFile::reopen` (lib.rs:126):
`File::open(&self.core.file_path).map(|file| TempFile { file: Some(file), core: self.core })`.
On success the core moves into the new `TempFile`; on failure `self` is
consumed and its core is dropped, which runs the `TempFileCore` drop
(an attempted `remove_file`, its error swallowed). -/
def ClosedTempFile.reopen (fs : FS) (c : ClosedTempFile) : FS × Except IoError TempFile :=
  match fileOpen fs c.core.file_path with
  | Except.ok file => (fs, Except.ok { file := some file, core := c.core })
  | Except.error e => (TempFileCore.drop fs c.core, Except.error e)

/-- `ClosedTempFile::file_path` (lib.rs:134). -/
def ClosedTempFile.file_path (c : ClosedTempFile) : FsPath :=
  c.core.file_path

/-- Discarding a `TempFile`: fields drop in declaration order, so the
`Option<File>` closes first, then the core's `Drop` removes the file. -/
def TempFile.discard (fs : FS) (t : TempFile) : FS :=
  TempFileCore.drop fs t.core

/-- Discarding a `ClosedTempFile`: the core's `Drop` removes the file. -/
def ClosedTempFile.discard (fs : FS) (c : ClosedTempFile) : FS :=
  TempFileCore.drop fs c.core

/-!
## Lifecycle state machine

One created temp file, followed by any sequence of close/reopen/discard
transitions. `removeCalls` is a ghost counter of how many times
`fs::remove_file` is invoked on the temp path (once per `TempFileCore`
drop, whether or not the file is still present).
-/

/-- The live owning value: either the open or the closed representation. -/
inductive Handle where
  | opened : TempFile → Handle
  | closed : ClosedTempFile → Handle
deriving DecidableEq, Repr

/-- The lifecycle transitions a caller can perform on an owning value. -/
inductive Action where
  | close : Action
  | reopen : Action
  | discard : Action
deriving DecidableEq, Repr

/-- A lifecycle configuration: the owning value (if still alive), the
filesystem, and the ghost count of `remove_file` invocations. -/
structure Config where
  handle : Option Handle
  fs : FS
  removeCalls : Nat

/-- One lifecycle step. An action that does not apply to the current state
(close on closed, reopen on open, anything after death) is rejected by the
Rust type system and leaves the configuration unchanged. A failed reopen
consumes the handle: its core is dropped inside `reopen`, invoking
`remove_file` once. A discard drops the core, invoking `remove_file` once. -/
def stepAction (s : Config) (a : Action) : Config :=
  match s.handle, a with
  | some (Handle.opened t), Action.close =>
    { s with handle := some (Handle.closed t.close) }
  | some (Handle.closed c), Action.reopen =>
    match ClosedTempFile.reopen s.fs c with
    | (fs', Except.ok t) => { handle := some (Handle.opened t), fs := fs', removeCalls := s.removeCalls }
    | (fs', Except.error _) => { handle := none, fs := fs', removeCalls := s.removeCalls + 1 }
  | some (Handle.opened t), Action.discard =>
    { handle := none, fs := t.discard s.fs, removeCalls := s.removeCalls + 1 }
  | some (Handle.closed c), Action.discard =>
    { handle := none, fs := c.discard s.fs, removeCalls := s.removeCalls + 1 }
  | _, _ => s

/-- Run a sequence of lifecycle actions. -/
def runActions (s : Config) (acts : List Action) : Config :=
  acts.foldl stepAction s

/-- The configuration right after a successful creation at path `p` on
filesystem `fs`: an open handle, zero `remove_file` calls so far. -/
def createdConfig (fs : FS) (p : FsPath) : Config :=
  { handle := some (Handle.opened { file := some { path := p, readable := false, writable := true },
                                    core := { file_path := p } }),
    fs := fs.set p "",
    removeCalls := 0 }

/-- `TempFile` values reachable through the public API: produced by
`TempFileBuilder::build` / `TempFile::from_path` or by
`ClosedTempFile::reopen`. -/
inductive ReachableTempFile : TempFile → Prop where
  | from_path_ok : ∀ (fs : FS) (p : FsPath) (t : TempFile),
      (TempFile.from_path fs p).2 = Except.ok t → ReachableTempFile t
  | reopen_ok : ∀ (fs : FS) (c : ClosedTempFile) (t : TempFile),
      (ClosedTempFile.reopen fs c).2 = Except.ok t → ReachableTempFile t

/-! ## Concrete sample values, used to instantiate the theorems -/

/-- A concrete temp path: `/tmp/temp1234`. -/
def samplePath : FsPath :=
  [Component.rootDir, Component.normal "tmp", Component.normal "temp1234"]

/-- A core bound to `samplePath`. -/
def sampleCore : TempFileCore := { file_path := samplePath }

/-- A closed handle bound to `samplePath`. -/
def sampleClosed : ClosedTempFile := { core := sampleCore }

/-- The open handle `TempFile::from_path` produces at `samplePath`. -/
def sampleTempFile : TempFile :=
  { file := some { path := samplePath, readable := false, writable := true },
    core := sampleCore }

/-- The open handle `ClosedTempFile::reopen` produces at `samplePath`. -/
def sampleReopened : TempFile :=
  { file := some { path := samplePath, readable := true, writable := false },
    core := sampleCore }

/-- A filesystem with one file, `abc` at `samplePath`. -/
def sampleFS : FS := FS.empty.set samplePath "abc"

/-- A builder whose path is the relative path `a.foo`. -/
def sampleDotFooBuilder : TempFileBuilder :=
  { file_path := [Component.normal "a.foo"] }

/-- A builder whose path is the relative path `a/b`. -/
def sampleDirBuilder : TempFileBuilder :=
  { file_path := [Component.normal "a", Component.normal "b"] }

/-- A builder whose path `..` has no file-name component. -/
def noNameBuilder : TempFileBuilder :=
  { file_path := [Component.parentDir] }

/-- A concrete target directory `/x/y`. -/
def sampleDirD : FsPath :=
  [Component.rootDir, Component.normal "x", Component.normal "y"]

/-! ## Helper lemmas -/

/-- Dropping a `TempFileCore` always leaves nothing at its path. -/
theorem TempFileCore.drop_apply_self (fs : FS) (core : TempFileCore) :
    TempFileCore.drop fs core core.file_path = none := by
  unfold TempFileCore.drop removeFile
  cases h : fs core.file_path with
  | some c => simp [FS.erase]
  | none => simpa using h

/-- Dropping a `TempFileCore` is exactly erasure of its path: the
`remove_file` error on an already-absent file is swallowed and makes no
difference to the resulting filesystem. -/
theorem TempFileCore.drop_eq_erase (fs : FS) (core : TempFileCore) :
    TempFileCore.drop fs core = fs.erase core.file_path := by
  unfold TempFileCore.drop removeFile
  cases h : fs core.file_path with
  | some c => simp
  | none =>
    funext q
    by_cases hq : q = core.file_path
    · simp [FS.erase, hq, h]
    · simp [FS.erase, hq]

/-! ## Lifecycle invariant lemmas -/

/-- One lifecycle step preserves the counter invariant: while the owning
value is alive no `remove_file` call has happened; after it is gone exactly
one has. -/
theorem stepAction_inv (s : Config) (a : Action)
    (h : s.removeCalls = if s.handle.isSome then 0 else 1) :
    (stepAction s a).removeCalls = if (stepAction s a).handle.isSome then 0 else 1 := by
  cases hh : s.handle with
  | none =>
    simp [hh] at h
    simp [stepAction, hh, h]
  | some hd =>
    simp [hh] at h
    cases hd with
    | opened t =>
      cases a <;> simp [stepAction, hh, h]
    | closed c =>
      cases a with
      | close => simp [stepAction, hh, h]
      | discard => simp [stepAction, hh, h]
      | reopen =>
        rcases hr : ClosedTempFile.reopen s.fs c with ⟨fs', r⟩
        cases r <;> simp [stepAction, hh, hr, h]

/-- Running any action sequence preserves the counter invariant. -/
theorem runActions_inv (acts : List Action) : ∀ (s : Config),
    s.removeCalls = (if s.handle.isSome then 0 else 1) →
    (runActions s acts).removeCalls =
      if (runActions s acts).handle.isSome then 0 else 1 := by
  induction acts with
  | nil => exact fun s h => h
  | cons a rest ih => exact fun s h => ih (stepAction s a) (stepAction_inv s a h)

/-! ## Claims -/

/-- C1: the claim says creating a temp file at a path where a file already
exists returns an `AlreadyExists` error and never truncates. The code
(`TempFile::from_path`, lib.rs:88) uses `File::create`, which succeeds on an
existing file and truncates it: on a filesystem holding `abc` at the path,
creation returns `Ok` and the file's contents become empty. This contradicts
the function's own doc comment ("If the file exists, then it returns Err."). -/
theorem c1_create_at_existing_path_truncates :
    sampleFS samplePath = some "abc" ∧
    (TempFile.from_path sampleFS samplePath).2 = Except.ok sampleTempFile ∧
    (TempFile.from_path sampleFS samplePath).1 samplePath = some "" :=
  ⟨rfl, rfl, rfl⟩

/-- C2: discarding the final owning value — a `TempFile` or a
`ClosedTempFile` — deletes the file at the bound path, so a subsequent
open-for-read at that path fails with `NotFound`. -/
theorem c2_discard_deletes_file (fs : FS) (t : TempFile) (c : ClosedTempFile) :
    fileOpen (t.discard fs) t.file_path = Except.error IoError.notFound ∧
    fileOpen (c.discard fs) c.file_path = Except.error IoError.notFound := by
  constructor <;>
    simp [TempFile.discard, ClosedTempFile.discard, fileOpen, TempFile.file_path,
      ClosedTempFile.file_path, TempFileCore.drop_apply_self]

/-- C3: along any lifecycle (create, then any sequence of close/reopen
transitions, then discard) the `remove_file` action on the bound path runs
at most once overall, exactly once by the time the owning value is gone, and
never while an owner is still alive — close and reopen move the core and
never duplicate the deletion obligation. -/
theorem c3_deletion_obligation_exactly_once (fs : FS) (p : FsPath) (acts : List Action) :
    (runActions (createdConfig fs p) acts).removeCalls ≤ 1 ∧
    ((runActions (createdConfig fs p) acts).handle = none →
      (runActions (createdConfig fs p) acts).removeCalls = 1) ∧
    (∀ h : Handle, (runActions (createdConfig fs p) acts).handle = some h →
      (runActions (createdConfig fs p) acts).removeCalls = 0) := by
  have hinv := runActions_inv acts (createdConfig fs p) (by simp [createdConfig])
  refine ⟨?_, ?_, ?_⟩
  · rw [hinv]; split <;> simp
  · intro hnone; simp [hinv, hnone]
  · intro h hsome; simp [hinv, hsome]

/-- C3 witness: a concrete full lifecycle (close, reopen, close, discard)
from a successful creation performs exactly one `remove_file` call. -/
theorem c3_witness :
    (runActions (createdConfig FS.empty samplePath)
      [Action.close, Action.reopen, Action.close, Action.discard]).removeCalls = 1 :=
  (c3_deletion_obligation_exactly_once FS.empty samplePath
    [Action.close, Action.reopen, Action.close, Action.discard]).2.1 rfl

/-- C4: the claim says `with_extension(E)` replaces the extension of the
builder's path with E. The code (lib.rs:74) computes
`self.file_path.with_extension(ext)` and discards the returned `PathBuf`,
so the builder is unchanged: on a builder with path `a.foo`,
`with_extension("txt")` leaves the built path's extension `foo`, not `txt`. -/
theorem c4_with_extension_discards_result :
    (∀ (b : TempFileBuilder) (ext : String), b.with_extension ext = b) ∧
    (sampleDotFooBuilder.with_extension "txt").file_path.extension = some "foo" ∧
    (sampleDotFooBuilder.with_extension "txt").file_path.extension ≠ some "txt" :=
  ⟨fun _ _ => rfl, by decide, by decide⟩

/-- C5: the claim says `with_file_name(N)` replaces the file-name component
of the builder's path with N. The code (lib.rs:68) computes
`self.file_path.with_file_name(file_name)` and discards the returned
`PathBuf`, so the builder is unchanged: on a builder with path `a/b`,
`with_file_name("c.txt")` leaves the built path's file name `b`. -/
theorem c5_with_file_name_discards_result :
    (∀ (b : TempFileBuilder) (n : String), b.with_file_name n = b) ∧
    (sampleDirBuilder.with_file_name "c.txt").file_path.fileName = some "b" ∧
    (sampleDirBuilder.with_file_name "c.txt").file_path.fileName ≠ some "c.txt" :=
  ⟨fun _ _ => rfl, by decide, by decide⟩

/-- C6: `reopen` opens the stored path in read mode; when the file is
missing it returns `NotFound` and creates nothing at the path, and on
success it returns a `TempFile` holding a read-mode descriptor for the same
path, with the whole core (the deletion obligation) transferred. -/
theorem c6_reopen_read_mode_no_create (fs : FS) (c : ClosedTempFile) :
    (fs c.file_path = none →
      (ClosedTempFile.reopen fs c).2 = Except.error IoError.notFound ∧
      (ClosedTempFile.reopen fs c).1 c.file_path = none) ∧
    (∀ t : TempFile, (ClosedTempFile.reopen fs c).2 = Except.ok t →
      t.core = c.core ∧
      t.file = some { path := c.file_path, readable := true, writable := false }) := by
  cases hfs : fs c.core.file_path with
  | none =>
    constructor
    · intro _
      constructor
      · simp [ClosedTempFile.reopen, fileOpen, hfs]
      · simp [ClosedTempFile.reopen, fileOpen, hfs, ClosedTempFile.file_path,
          TempFileCore.drop_apply_self]
    · intro t ht
      simp [ClosedTempFile.reopen, fileOpen, hfs] at ht
  | some content =>
    constructor
    · intro h
      rw [ClosedTempFile.file_path, hfs] at h
      exact absurd h (by simp)
    · intro t ht
      simp [ClosedTempFile.reopen, fileOpen, hfs] at ht
      rw [← ht]
      exact ⟨rfl, rfl⟩

/-- C6 witness: reopening with the file missing fails with `NotFound` and
creates nothing; reopening with the file present yields the read-mode handle
bound to the same path and core. -/
theorem c6_witness :
    ((ClosedTempFile.reopen FS.empty sampleClosed).2 = Except.error IoError.notFound ∧
      (ClosedTempFile.reopen FS.empty sampleClosed).1 sampleClosed.file_path = none) ∧
    (sampleReopened.core = sampleClosed.core ∧
      sampleReopened.file = some { path := sampleClosed.file_path, readable := true,
                                   writable := false }) :=
  ⟨(c6_reopen_read_mode_no_create FS.empty sampleClosed).1 rfl,
   (c6_reopen_read_mode_no_create sampleFS sampleClosed).2 sampleReopened rfl⟩

/-- C7 counterexample: the claim quantifies over every builder state, but on
a builder whose path `..` has no file-name component, `with_parent_dir(/x/y)`
produces the path `/x/y` itself: its directory component is `/x`, not
`/x/y`, and its file name `y` differs from the previous (absent) one. -/
theorem c7_counterexample :
    ¬ (((noNameBuilder.with_parent_dir sampleDirD).file_path.parent = some sampleDirD) ∧
       ((noNameBuilder.with_parent_dir sampleDirD).file_path.fileName =
         noNameBuilder.file_path.fileName)) := by
  decide

/-- C7 amended: for every builder state whose path has a file-name
component, `with_parent_dir(D)` makes the path's directory component equal
to D and keeps the file name unchanged. -/
theorem c7_with_parent_dir_replaces_directory (b : TempFileBuilder) (d : FsPath) (n : String)
    (h : b.file_path.fileName = some n) :
    (b.with_parent_dir d).file_path.parent = some d ∧
    (b.with_parent_dir d).file_path.fileName = some n := by
  have hres : (b.with_parent_dir d).file_path = d ++ [Component.normal n] := by
    simp [TempFileBuilder.with_parent_dir, TempFileBuilder.with_path, h, FsPath.push,
      FsPath.isAbsolute]
  rw [hres]
  constructor
  · rw [FsPath.parent]
    have h1 : ¬ (d ++ [Component.normal n] = [] ∨
        d ++ [Component.normal n] = [Component.rootDir]) := by
      rintro (h2 | h2)
      · simp at h2
      · have h3 := congrArg List.getLast? h2
        simp [List.getLast?_concat] at h3
    rw [if_neg h1, List.dropLast_concat]
  · simp [FsPath.fileName, List.getLast?_concat]

/-- C7 witness: on the builder with path `a/b`, `with_parent_dir(/x/y)`
yields a path with directory `/x/y` and file name `b`. -/
theorem c7_witness :
    (sampleDirBuilder.with_parent_dir sampleDirD).file_path.parent = some sampleDirD ∧
    (sampleDirBuilder.with_parent_dir sampleDirD).file_path.fileName = some "b" :=
  c7_with_parent_dir_replaces_directory sampleDirBuilder sampleDirD "b" rfl

/-- C8: `close` is total — it returns a `ClosedTempFile` outright, with no
error case — and preserves the bound path, and a successful `reopen` also
preserves the bound path: the path never changes after creation. -/
theorem c8_close_total_paths_preserved (fs : FS) (t : TempFile) (c : ClosedTempFile) :
    (TempFile.close t).file_path = t.file_path ∧
    (∀ t' : TempFile, (ClosedTempFile.reopen fs c).2 = Except.ok t' →
      t'.file_path = c.file_path) := by
  constructor
  · rfl
  · intro t' ht
    cases hfs : fs c.core.file_path with
    | none => simp [ClosedTempFile.reopen, fileOpen, hfs] at ht
    | some content =>
      simp [ClosedTempFile.reopen, fileOpen, hfs] at ht
      rw [← ht]
      rfl

/-- C8 witness: closing the concrete open handle keeps its path, and the
concretely reopened handle keeps the closed handle's path. -/
theorem c8_witness :
    (TempFile.close sampleTempFile).file_path = sampleTempFile.file_path ∧
    sampleReopened.file_path = sampleClosed.file_path :=
  ⟨(c8_close_total_paths_preserved sampleFS sampleTempFile sampleClosed).1,
   (c8_close_total_paths_preserved sampleFS sampleTempFile sampleClosed).2
     sampleReopened rfl⟩

/-- C9: discard-time deletion is silent and idempotent: dropping a core is
exactly erasure of its path for any filesystem state — including one where
the file was already removed externally, where it returns the filesystem
unchanged — and no error is ever surfaced (the drop is a total function). -/
theorem c9_discard_swallows_deletion_errors (fs : FS) (t : TempFile) (c : ClosedTempFile) :
    t.discard fs = fs.erase t.file_path ∧
    c.discard fs = fs.erase c.file_path ∧
    (fs c.file_path = none → c.discard fs = fs) := by
  refine ⟨TempFileCore.drop_eq_erase fs t.core, TempFileCore.drop_eq_erase fs c.core, ?_⟩
  intro h
  rw [ClosedTempFile.file_path] at h
  simp [ClosedTempFile.discard, TempFileCore.drop, removeFile, h]

/-- C9 witness: discarding the concrete closed handle on a filesystem where
its file is already absent returns the filesystem unchanged, with no error. -/
theorem c9_witness : ClosedTempFile.discard FS.empty sampleClosed = FS.empty :=
  (c9_discard_swallows_deletion_errors FS.empty sampleTempFile sampleClosed).2.2 rfl

/-- C10: every `TempFile` reachable through the public API (built by
`TempFile::from_path` / `TempFileBuilder::build`, or returned by
`ClosedTempFile::reopen`) has `file = Some(..)`, so the accessors `file()`
and `file_mut()` never hit their `expect` branch. -/
theorem c10_public_accessors_never_panic (t : TempFile) (h : ReachableTempFile t) :
    ∃ f : FileDesc, t.file = some f ∧
      t.file_ref = Except.ok f ∧ t.file_mut_ref = Except.ok f := by
  cases h with
  | from_path_ok fs p t ht =>
    simp [TempFile.from_path, fileCreate, Except.map] at ht
    rw [← ht]
    exact ⟨_, rfl, rfl, rfl⟩
  | reopen_ok fs c t ht =>
    cases hfs : fs c.core.file_path with
    | none => simp [ClosedTempFile.reopen, fileOpen, hfs] at ht
    | some content =>
      simp [ClosedTempFile.reopen, fileOpen, hfs] at ht
      rw [← ht]
      exact ⟨_, rfl, rfl, rfl⟩

/-- C10 witness: the concrete handle produced by `from_path` on the empty
filesystem has a live descriptor and both accessors return it. -/
theorem c10_witness :
    ∃ f : FileDesc, sampleTempFile.file = some f ∧
      sampleTempFile.file_ref = Except.ok f ∧
      sampleTempFile.file_mut_ref = Except.ok f :=
  c10_public_accessors_never_panic sampleTempFile
    (ReachableTempFile.from_path_ok FS.empty samplePath sampleTempFile rfl)

end Tempfile
